import Mathlib

/-!
Verification development for the free-root-python repository.

The repository ships two near-duplicate implementations of the same
class: `src/freeroot.py` (namespace `Freeroot` below) and
`src/direct_use_freeroot.py` (namespace `DirectUse` below).  Both
download a prebuilt PRoot binary and an Ubuntu base image, extract the
image into a root directory, write a DNS configuration and an
installed-flag file, and then run commands inside the sandbox via a
fixed PRoot argument list.

The embedding models:
 - the constructor's architecture mapping (`initFreeRoot`),
 - the install state machine over a finite abstract filesystem state
   (`RootState`), with the outcome of the fallible external steps
   (downloads, tar extraction, resolv.conf write) supplied by an
   `Oracle`, and the sequence of performed side effects recorded as a
   `trace` of `Step`s,
 - the run_command / start_shell argument-list construction,
 - the retry loop of the download helper, with each attempt's outcome
   supplied as a function from attempt index to `Option Nat`
   (`none` = the attempt raised, `some n` = a file of `n` bytes was
   written without an exception),
 - the path layout of the installed flag and the cleanup method, over a
   filesystem modelled as the list of existing paths (paths are lists
   of characters).

Notebook display calls (IPython `clear_output`/`display`, `print`) have
no filesystem effect and are not modelled; `os.chmod` and the flag
write itself are assumed to succeed.
-/

/-- Configuration fields set by FreeRoot.__init__ in both variants:
the detected machine value, the alternate Ubuntu architecture tag, and
the two download URLs derived from them. -/
structure Config where
  arch : String
  arch_alt : String
  proot_url : String
  ubuntu_url : String
deriving DecidableEq, Repr

/-- Model of FreeRoot.__init__ (identical in freeroot.py lines 22-34 and
direct_use_freeroot.py lines 34-43): map the machine value to the
alternate tag, raising RuntimeError for any other value, and build the
two URLs from the architecture values. -/
def initFreeRoot (machine : String) : Except String Config :=
  if machine = "x86_64" then
    Except.ok
      { arch := machine
        arch_alt := "amd64"
        proot_url := "https://raw.githubusercontent.com/foxytouxxx/freeroot/main/proot-" ++ machine
        ubuntu_url := "http://cdimage.ubuntu.com/ubuntu-base/releases/20.04/release/ubuntu-base-20.04.4-base-amd64.tar.gz" }
  else if machine = "aarch64" then
    Except.ok
      { arch := machine
        arch_alt := "arm64"
        proot_url := "https://raw.githubusercontent.com/foxytouxxx/freeroot/main/proot-" ++ machine
        ubuntu_url := "http://cdimage.ubuntu.com/ubuntu-base/releases/20.04/release/ubuntu-base-20.04.4-base-arm64.tar.gz" }
  else
    Except.error ("Unsupported CPU architecture: " ++ machine)

/-- Abstract state of the sandbox root directory: whether the root
directory exists, whether the PRoot binary has been written inside it,
whether the base-image tree has been extracted, whether etc/resolv.conf
has been written, and whether the .installed flag file exists. -/
structure RootState where
  rootDir : Bool
  prootBin : Bool
  tree : Bool
  resolv : Bool
  flag : Bool
deriving DecidableEq, Repr, Fintype

/-- Outcomes of the fallible external steps of one install run: whether
the PRoot download (after its internal retries) succeeds, whether the
Ubuntu image download succeeds, whether the tar extraction succeeds,
and whether writing etc/resolv.conf succeeds. -/
structure Oracle where
  prootOk : Bool
  ubuntuOk : Bool
  tarOk : Bool
  resolvOk : Bool
deriving DecidableEq, Repr, Fintype

/-- Side effects performed by an install run, in order. -/
inductive Step where
  | downloadUbuntu
  | makeRootDir
  | extractTar
  | downloadProot
  | writeProot
  | chmodProot
  | writeResolv
  | writeFlag
  | removeRoot
deriving DecidableEq, Repr

/-- Result of an install run: the final filesystem state, the ordered
list of completed side effects, and whether an exception propagated to
the caller. -/
structure InstallResult where
  state : RootState
  trace : List Step
  raised : Bool
deriving DecidableEq, Repr

/-- The state of a root that was never attempted: nothing exists. -/
def cleanState : RootState :=
  { rootDir := false, prootBin := false, tree := false, resolv := false, flag := false }

/-- Filesystem well-formedness: anything recorded inside the root
directory implies the root directory itself exists.  Every state
reachable by actual filesystem operations satisfies this. -/
def wf (s : RootState) : Prop :=
  (s.prootBin || s.tree || s.resolv || s.flag) = true → s.rootDir = true

instance (s : RootState) : Decidable (wf s) := by
  unfold wf; infer_instance

namespace Freeroot

/-- Exception handler of freeroot.py install (lines 121-126): print the
error, then if the root directory exists remove it recursively with
ignore_errors=True, then re-raise. -/
def failCleanup (s : RootState) (tr : List Step) : InstallResult :=
  if s.rootDir then
    { state := cleanState, trace := tr ++ [Step.removeRoot], raised := true }
  else
    { state := s, trace := tr, raised := true }

/-- Model of freeroot.py FreeRoot.install (lines 98-126).  If the flag
exists, return immediately.  Otherwise run _extract_rootfs (download
the Ubuntu image to a temporary file outside the root, create the root
directory, run tar), then _setup_proot (download the PRoot binary into
the root, chmod it), then _configure_rootfs (write etc/resolv.conf,
then create the .installed flag).  Any step raising lands in the
except block modelled by failCleanup. -/
def install (s : RootState) (o : Oracle) : InstallResult :=
  if s.flag then
    { state := s, trace := [], raised := false }
  else if o.ubuntuOk = false then
    failCleanup s []
  else
    if o.tarOk = false then
      failCleanup { s with rootDir := true }
        [Step.downloadUbuntu, Step.makeRootDir]
    else
      if o.prootOk = false then
        failCleanup { s with rootDir := true, tree := true }
          [Step.downloadUbuntu, Step.makeRootDir, Step.extractTar]
      else
        if o.resolvOk = false then
          failCleanup { s with rootDir := true, tree := true, prootBin := true }
            [Step.downloadUbuntu, Step.makeRootDir, Step.extractTar,
             Step.downloadProot, Step.writeProot, Step.chmodProot]
        else
          { state := { s with rootDir := true, tree := true, prootBin := true, resolv := true, flag := true }
            trace := [Step.downloadUbuntu, Step.makeRootDir, Step.extractTar,
                      Step.downloadProot, Step.writeProot, Step.chmodProot,
                      Step.writeResolv, Step.writeFlag]
            raised := false }

end Freeroot

namespace DirectUse

/-- Model of direct_use_freeroot.py FreeRoot.install (lines 96-108).
If the flag exists, return immediately.  Otherwise run _setup_proot
(download the PRoot binary into memory; on success create the binary's
parent directories, which creates the root directory, write the binary
and chmod it), then _extract_rootfs (download the Ubuntu image into
memory, extract it with tarfile), then _configure_rootfs (write
etc/resolv.conf inside its own try/except, so a failed write only
prints a warning), and finally write the .installed flag.  There is no
exception handler: a raising step propagates with the filesystem left
as it was at that point. -/
def install (s : RootState) (o : Oracle) : InstallResult :=
  if s.flag then
    { state := s, trace := [], raised := false }
  else if o.prootOk = false then
    { state := s, trace := [], raised := true }
  else
    if o.ubuntuOk = false then
      { state := { s with rootDir := true, prootBin := true }
        trace := [Step.downloadProot, Step.makeRootDir, Step.writeProot, Step.chmodProot]
        raised := true }
    else
      if o.tarOk = false then
        { state := { s with rootDir := true, prootBin := true }
          trace := [Step.downloadProot, Step.makeRootDir, Step.writeProot,
                    Step.chmodProot, Step.downloadUbuntu]
          raised := true }
      else
        if o.resolvOk then
          { state := { s with rootDir := true, prootBin := true, tree := true, resolv := true, flag := true }
            trace := [Step.downloadProot, Step.makeRootDir, Step.writeProot,
                      Step.chmodProot, Step.downloadUbuntu, Step.extractTar,
                      Step.writeResolv, Step.writeFlag]
            raised := false }
        else
          { state := { s with rootDir := true, prootBin := true, tree := true, flag := true }
            trace := [Step.downloadProot, Step.makeRootDir, Step.writeProot,
                      Step.chmodProot, Step.downloadUbuntu, Step.extractTar,
                      Step.writeFlag]
            raised := false }

end DirectUse

/-- Outcome of one launched sandbox process, as observed by
subprocess.run: its exit status and its captured output streams. -/
structure ExecOutcome where
  exitCode : Nat
  stdout : String
  stderr : String
deriving DecidableEq, Repr

/-- Errors run_command can surface to its caller. -/
inductive RunError where
  | notInstalled
  | installFailed
  | commandFailed (exitCode : Nat) (stderr : String)
deriving DecidableEq, Repr

/-- Result of one run_command call: the root state afterwards, the
returned stdout on success, the propagated error otherwise, and how
many times install() was invoked implicitly during the call. -/
structure RunResult where
  state : RootState
  output : Option String
  error : Option RunError
  installCalls : Nat
deriving DecidableEq, Repr

namespace Freeroot

/-- Model of freeroot.py FreeRoot.run_command (lines 128-164): if the
installed flag is absent, raise RuntimeError immediately and never
install; otherwise launch the command, returning its stdout when it
exits zero and re-raising CalledProcessError (exit code and captured
stderr) when it exits non-zero. -/
def runCommand (s : RootState) (ex : ExecOutcome) : RunResult :=
  if s.flag = false then
    { state := s, output := none, error := some RunError.notInstalled, installCalls := 0 }
  else if ex.exitCode = 0 then
    { state := s, output := some ex.stdout, error := none, installCalls := 0 }
  else
    { state := s, output := none,
      error := some (RunError.commandFailed ex.exitCode ex.stderr), installCalls := 0 }

end Freeroot

namespace DirectUse

/-- Model of direct_use_freeroot.py FreeRoot.run_command (lines
110-144): if the installed flag is absent, call install() once (an
exception from it propagates); then launch the command, returning its
stdout on exit code zero and re-raising CalledProcessError otherwise. -/
def runCommand (s : RootState) (o : Oracle) (ex : ExecOutcome) : RunResult :=
  if s.flag = false then
    if (DirectUse.install s o).raised then
      { state := (DirectUse.install s o).state, output := none,
        error := some RunError.installFailed, installCalls := 1 }
    else if ex.exitCode = 0 then
      { state := (DirectUse.install s o).state, output := some ex.stdout,
        error := none, installCalls := 1 }
    else
      { state := (DirectUse.install s o).state, output := none,
        error := some (RunError.commandFailed ex.exitCode ex.stderr), installCalls := 1 }
  else if ex.exitCode = 0 then
    { state := s, output := some ex.stdout, error := none, installCalls := 0 }
  else
    { state := s, output := none,
      error := some (RunError.commandFailed ex.exitCode ex.stderr), installCalls := 0 }

end DirectUse

/-- Model of os.path.join for the relative second components used in
this repository (".installed", "etc/resolv.conf", "usr", ...): append
with a single separating slash unless the first component is empty or
already ends with a slash. -/
def osPathJoin (a b : String) : String :=
  if a = "" then b
  else if a.data.getLast? = some '/' then a ++ b
  else a ++ "/" ++ b

/-- A command argument as passed by the caller of run_command: either a
string or an already tokenized argument vector. -/
inductive Command where
  | str (s : String)
  | argv (v : List String)
deriving DecidableEq, Repr

/-- A Python value occurring as one element of the subprocess argument
list: direct_use_freeroot.py inserts the caller's command object into
the list unexamined, so an element is either a string or a list. -/
inductive PyVal where
  | s (v : String)
  | l (v : List String)
deriving DecidableEq, Repr

/-- The value direct_use_freeroot.py places after "-c": the command
object itself, whatever its type. -/
def pyValOfCommand : Command → PyVal
  | Command.str x => PyVal.s x
  | Command.argv v => PyVal.l v

/-- The fixed bind-mount block followed by the kill-on-exit flag, as it
appears (contiguously, in this order) in every engine argument list
built by the repository; the resolv.conf bind spelling differs per
variant and is passed in. -/
def bindBlock (resolvBind : String) : List String :=
  ["-b", "/dev", "-b", "/sys", "-b", "/proc", "-b", resolvBind, "--kill-on-exit"]

namespace Freeroot

/-- self.proot_path: os.path.join(rootfs_dir, "usr", "local", "bin", "proot")
(freeroot.py line 35). -/
def prootPath (rootfs_dir : String) : String :=
  osPathJoin (osPathJoin (osPathJoin (osPathJoin rootfs_dir "usr") "local") "bin") "proot"

/-- The engine argument list of freeroot.py run_command (lines 133-140),
verbatim. -/
def prootCmd (rootfs_dir working_dir : String) : List String :=
  [prootPath rootfs_dir,
   "--rootfs=" ++ rootfs_dir,
   "-0", "-w", working_dir,
   "-b", "/dev", "-b", "/sys", "-b", "/proc",
   "-b", osPathJoin rootfs_dir "etc/resolv.conf" ++ ":/etc/resolv.conf",
   "--kill-on-exit"]

/-- freeroot.py run_command lines 142-143: a string command becomes
["bash", "-c", command]; a list is used as is. -/
def commandArgv : Command → List String
  | Command.str x => ["bash", "-c", x]
  | Command.argv v => v

/-- full_cmd = proot_cmd + command (freeroot.py line 145). -/
def fullCmd (rootfs_dir working_dir : String) (c : Command) : List String :=
  prootCmd rootfs_dir working_dir ++ commandArgv c

/-- The argument list of freeroot.py start_shell (lines 228-236),
verbatim. -/
def shellCmd (rootfs_dir : String) : List String :=
  [prootPath rootfs_dir,
   "--rootfs=" ++ rootfs_dir,
   "-0", "-w", "/root",
   "-b", "/dev", "-b", "/sys", "-b", "/proc",
   "-b", osPathJoin rootfs_dir "etc/resolv.conf" ++ ":/etc/resolv.conf",
   "--kill-on-exit",
   "bash"]

end Freeroot

namespace DirectUse

/-- The argument list of direct_use_freeroot.py run_command (lines
114-125), verbatim: the working directory defaults to "/root" via
"working_dir or", the resolv.conf bind is built by f-string
concatenation, and the caller's command object is always the single
element after "bash", "-c". -/
def fullCmd (rootfs_dir : String) (working_dir : Option String) (c : Command) : List PyVal :=
  ([Freeroot.prootPath rootfs_dir,
    "--rootfs=" ++ rootfs_dir,
    "-0",
    "-w", working_dir.getD "/root",
    "-b", "/dev",
    "-b", "/sys",
    "-b", "/proc",
    "-b", rootfs_dir ++ "/etc/resolv.conf:/etc/resolv.conf",
    "--kill-on-exit",
    "bash", "-c"].map PyVal.s) ++ [pyValOfCommand c]

/-- The argument list of direct_use_freeroot.py start_shell (lines
162-173), verbatim. -/
def shellCmd (rootfs_dir : String) : List String :=
  [Freeroot.prootPath rootfs_dir,
   "--rootfs=" ++ rootfs_dir,
   "-0",
   "-w", "/root",
   "-b", "/dev",
   "-b", "/sys",
   "-b", "/proc",
   "-b", rootfs_dir ++ "/etc/resolv.conf:/etc/resolv.conf",
   "--kill-on-exit",
   "bash"]

end DirectUse

namespace Freeroot

/-- Model of freeroot.py _download_file (lines 38-56).  The outcome of
attempt number i is att i: none means urlretrieve raised, some n means
it wrote a destination file of n bytes.  The loop returns True as soon
as an attempt writes a non-empty file; a raised attempt or a zero-byte
file consumes one retry; after max_retries attempts it returns False
(it never raises).  downloadFile att i fuel is the loop starting at
attempt i with fuel retries remaining; the call in the source is
downloadFile att 0 max_retries with max_retries = 5. -/
def downloadFile (att : Nat → Option Nat) : Nat → Nat → Bool
  | _, 0 => false
  | i, fuel + 1 =>
    match att i with
    | some n => if 0 < n then true else downloadFile att (i + 1) fuel
    | none => downloadFile att (i + 1) fuel

end Freeroot

namespace DirectUse

/-- Model of the write-based mode of direct_use_freeroot.py
_download_file (lines 47-61, return_data=False with a target path).
Attempt outcomes are as in Freeroot.downloadFile.  Any attempt that
does not raise returns True immediately, with no check of the written
file's size; after max_retries raising attempts the function returns
False (it never raises).  The call sites use max_retries = 3. -/
def downloadFile (att : Nat → Option Nat) : Nat → Nat → Bool
  | _, 0 => false
  | i, fuel + 1 =>
    match att i with
    | some _ => true
    | none => downloadFile att (i + 1) fuel

end DirectUse

/-- Paths are modelled as lists of characters. -/
abbrev FPath := List Char

/-- Model of os.path.join on character lists, for the relative second
components used in this repository. -/
def fpathJoin (a b : FPath) : FPath :=
  if a = [] then b
  else if a.getLast? = some '/' then a ++ b
  else a ++ '/' :: b

/-- self.installed_flag = os.path.join(rootfs_dir, ".installed")
(freeroot.py line 36, direct_use_freeroot.py line 45). -/
def installedFlagPath (rootfs_dir : FPath) : FPath :=
  fpathJoin rootfs_dir (String.toList ".installed")

/-- Whether path p lies strictly under directory d: the characters of d
followed by a slash form a leading segment of p. -/
def underDir (d p : FPath) : Bool :=
  p.take (d.length + 1) == d ++ ['/']

/-- A filesystem is the list of currently existing paths.  The root
directory counts as existing when it is recorded itself or when some
existing path lies under it (a real filesystem cannot hold a file whose
parent directory is absent). -/
def rootDirPresent (fs : List FPath) (d : FPath) : Bool :=
  fs.contains d || fs.any (fun p => underDir d p)

/-- Model of FreeRoot.cleanup (freeroot.py lines 245-250,
direct_use_freeroot.py lines 177-180): if the root directory exists,
shutil.rmtree removes it together with everything under it; otherwise
nothing is touched (the guard means no removal is even attempted, so
the call cannot raise). -/
def cleanupRoot (fs : List FPath) (d : FPath) : List FPath :=
  if rootDirPresent fs d then
    fs.filter (fun p => !(p == d || underDir d p))
  else fs

/-- An oracle on which every external step succeeds. -/
def oracleAllOk : Oracle :=
  { prootOk := true, ubuntuOk := true, tarOk := true, resolvOk := true }

/-- A concrete root directory path for witnesses. -/
def sampleRoot : FPath := String.toList "/home/user/rootfs"

/- ------------------------------------------------------------------
Helper lemmas (shared).
------------------------------------------------------------------ -/

theorem take_len_succ_append_cons {α : Type} (l : List α) (a : α) (t : List α) :
    (l ++ a :: t).take (l.length + 1) = l ++ [a] := by
  induction l with
  | nil => simp
  | cons x xs ih => simpa using ih

theorem installedFlagPath_eq (root : FPath) (h1 : root ≠ [])
    (h2 : root.getLast? ≠ some '/') :
    installedFlagPath root = root ++ '/' :: String.toList ".installed" := by
  simp [installedFlagPath, fpathJoin, h1, h2]

theorem underDir_append (root : FPath) (t : List Char) :
    underDir root (root ++ '/' :: t) = true := by
  simp [underDir, take_len_succ_append_cons]

theorem freeroot_download_none_step (att : Nat → Option Nat) (i fuel : Nat)
    (h : att i = none) :
    Freeroot.downloadFile att i (fuel + 1) = Freeroot.downloadFile att (i + 1) fuel := by
  simp [Freeroot.downloadFile, h]

theorem freeroot_download_zero_step (att : Nat → Option Nat) (i fuel : Nat)
    (h : att i = some 0) :
    Freeroot.downloadFile att i (fuel + 1) = Freeroot.downloadFile att (i + 1) fuel := by
  simp [Freeroot.downloadFile, h]

theorem freeroot_download_success (att : Nat → Option Nat) (i fuel n : Nat)
    (h : att i = some n) (hn : 0 < n) :
    Freeroot.downloadFile att i (fuel + 1) = true := by
  simp [Freeroot.downloadFile, h, hn]

theorem freeroot_download_exhausted (att : Nat → Option Nat) :
    ∀ fuel i, (∀ j, j < fuel → att (i + j) = none ∨ att (i + j) = some 0) →
      Freeroot.downloadFile att i fuel = false := by
  intro fuel
  induction fuel with
  | zero => intro i _; rfl
  | succ f ih =>
    intro i h
    have h0 := h 0 (Nat.succ_pos f)
    rw [Nat.add_zero] at h0
    have hrest : ∀ j, j < f → att (i + 1 + j) = none ∨ att (i + 1 + j) = some 0 := by
      intro j hj
      have hh := h (j + 1) (by omega)
      have heq : i + (j + 1) = i + 1 + j := by omega
      rw [heq] at hh
      exact hh
    rcases h0 with h0 | h0
    · rw [freeroot_download_none_step att i f h0]
      exact ih (i + 1) hrest
    · rw [freeroot_download_zero_step att i f h0]
      exact ih (i + 1) hrest

theorem direct_download_none_step (att : Nat → Option Nat) (i fuel : Nat)
    (h : att i = none) :
    DirectUse.downloadFile att i (fuel + 1) = DirectUse.downloadFile att (i + 1) fuel := by
  simp [DirectUse.downloadFile, h]

theorem direct_download_success (att : Nat → Option Nat) (i fuel n : Nat)
    (h : att i = some n) :
    DirectUse.downloadFile att i (fuel + 1) = true := by
  simp [DirectUse.downloadFile, h]

theorem direct_download_exhausted (att : Nat → Option Nat) :
    ∀ fuel i, (∀ j, j < fuel → att (i + j) = none) →
      DirectUse.downloadFile att i fuel = false := by
  intro fuel
  induction fuel with
  | zero => intro i _; rfl
  | succ f ih =>
    intro i h
    have h0 := h 0 (Nat.succ_pos f)
    rw [Nat.add_zero] at h0
    have hrest : ∀ j, j < f → att (i + 1 + j) = none := by
      intro j hj
      have hh := h (j + 1) (by omega)
      have heq : i + (j + 1) = i + 1 + j := by omega
      rw [heq] at hh
      exact hh
    rw [direct_download_none_step att i f h0]
    exact ih (i + 1) hrest

/- ------------------------------------------------------------------
Claim theorems.
------------------------------------------------------------------ -/

/-- C1 (amended): in freeroot.py, whenever install() fails, the except
block best-effort removes the partially built root directory, leaving a
state indistinguishable from never attempted (in particular no
installed-flag file), so a retry starts clean.  The direct-use variant
gives no such guarantee (see the counterexample). -/
theorem freeroot_install_failure_removes_root :
    ∀ (s : RootState) (o : Oracle), wf s →
      (Freeroot.install s o).raised = true →
      (Freeroot.install s o).state = cleanState ∧
      (Freeroot.install s o).state.flag = false := by
  decide

theorem freeroot_install_failure_removes_root_witness :
    (Freeroot.install ⟨true, false, false, false, false⟩ ⟨true, false, true, true⟩).state
      = cleanState :=
  (freeroot_install_failure_removes_root ⟨true, false, false, false, false⟩
    ⟨true, false, true, true⟩ (by decide) (by decide)).1

/-- C1 counterexample: direct_use_freeroot.py install() has no
exception handler.  Starting from a clean state, when the PRoot
download succeeds and the Ubuntu download then fails, install() raises
with the root directory and the PRoot binary still on disk, so the
failed call is distinguishable from never attempted. -/
theorem direct_install_failure_keeps_partial_root :
    (DirectUse.install cleanState ⟨true, false, true, true⟩).raised = true
    ∧ (DirectUse.install cleanState ⟨true, false, true, true⟩).state.rootDir = true
    ∧ (DirectUse.install cleanState ⟨true, false, true, true⟩).state.prootBin = true := by
  decide

/-- C2: in both variants install() is idempotent: with the flag present
it performs no step and leaves the state unchanged, and after any
non-raising install() a second call performs no step and leaves the
state unchanged, so the fetch and extraction work happens at most
once across two successive calls. -/
theorem install_idempotent :
    (∀ (s : RootState) (o : Oracle), s.flag = true →
        Freeroot.install s o = ⟨s, [], false⟩)
    ∧ (∀ (s : RootState) (o : Oracle), s.flag = true →
        DirectUse.install s o = ⟨s, [], false⟩)
    ∧ (∀ (s : RootState) (o o' : Oracle), (Freeroot.install s o).raised = false →
        Freeroot.install (Freeroot.install s o).state o'
          = ⟨(Freeroot.install s o).state, [], false⟩)
    ∧ (∀ (s : RootState) (o o' : Oracle), (DirectUse.install s o).raised = false →
        DirectUse.install (DirectUse.install s o).state o'
          = ⟨(DirectUse.install s o).state, [], false⟩) := by
  decide

theorem install_idempotent_witness :
    Freeroot.install (Freeroot.install cleanState oracleAllOk).state oracleAllOk
      = ⟨(Freeroot.install cleanState oracleAllOk).state, [], false⟩ :=
  install_idempotent.2.2.1 cleanState oracleAllOk oracleAllOk (by decide)

/-- C3: construction succeeds exactly for the machine values x86_64 and
aarch64, mapping them to the alternate tags amd64 and arm64; every
other value is rejected at construction time with the unsupported
architecture error (the mapping is a pure function of the machine
value, so the failure is deterministic and non-retryable). -/
theorem arch_mapping_correct :
    (∀ machine : String, (∃ c, initFreeRoot machine = Except.ok c) ↔
        machine = "x86_64" ∨ machine = "aarch64")
    ∧ (initFreeRoot "x86_64").map Config.arch_alt = Except.ok "amd64"
    ∧ (initFreeRoot "aarch64").map Config.arch_alt = Except.ok "arm64"
    ∧ (∀ machine : String, machine ≠ "x86_64" → machine ≠ "aarch64" →
        initFreeRoot machine = Except.error ("Unsupported CPU architecture: " ++ machine)) := by
  refine ⟨?_, rfl, rfl, ?_⟩
  · intro machine
    constructor
    · rintro ⟨c, hc⟩
      by_contra hne
      push_neg at hne
      simp [initFreeRoot, hne.1, hne.2] at hc
    · rintro (h | h) <;> subst h <;> exact ⟨_, rfl⟩
  · intro machine h1 h2
    simp [initFreeRoot, h1, h2]

theorem arch_mapping_correct_witness :
    initFreeRoot "riscv64" = Except.error ("Unsupported CPU architecture: " ++ "riscv64") :=
  arch_mapping_correct.2.2.2 "riscv64" (by decide) (by decide)

/-- C4: in every invocation mode of both variants (run_command and
start_shell), the engine argument list contains the bind-mount block
for /dev, /sys and /proc, the bind of the root's etc/resolv.conf over
/etc/resolv.conf, and the kill-on-exit flag, contiguously and in that
fixed order, with the pseudo-root flag "-0" also present (in the part
of the list before the block), for every root path, working directory
and command. -/
theorem bind_flags_always_present :
    (∀ (rd wd : String) (c : Command), ∃ pre post,
        Freeroot.fullCmd rd wd c =
          pre ++ bindBlock (osPathJoin rd "etc/resolv.conf" ++ ":/etc/resolv.conf") ++ post
        ∧ "-0" ∈ pre)
    ∧ (∀ rd : String, ∃ pre post,
        Freeroot.shellCmd rd =
          pre ++ bindBlock (osPathJoin rd "etc/resolv.conf" ++ ":/etc/resolv.conf") ++ post
        ∧ "-0" ∈ pre)
    ∧ (∀ (rd : String) (wd : Option String) (c : Command), ∃ pre post,
        DirectUse.fullCmd rd wd c =
          pre ++ (bindBlock (rd ++ "/etc/resolv.conf:/etc/resolv.conf")).map PyVal.s ++ post
        ∧ PyVal.s "-0" ∈ pre)
    ∧ (∀ rd : String, ∃ pre post,
        DirectUse.shellCmd rd =
          pre ++ bindBlock (rd ++ "/etc/resolv.conf:/etc/resolv.conf") ++ post
        ∧ "-0" ∈ pre) := by
  refine ⟨?_, ?_, ?_, ?_⟩
  · intro rd wd c
    exact ⟨[Freeroot.prootPath rd, "--rootfs=" ++ rd, "-0", "-w", wd],
           Freeroot.commandArgv c, rfl, by simp⟩
  · intro rd
    exact ⟨[Freeroot.prootPath rd, "--rootfs=" ++ rd, "-0", "-w", "/root"],
           ["bash"], rfl, by simp⟩
  · intro rd wd c
    exact ⟨[PyVal.s (Freeroot.prootPath rd), PyVal.s ("--rootfs=" ++ rd), PyVal.s "-0",
            PyVal.s "-w", PyVal.s (wd.getD "/root")],
           [PyVal.s "bash", PyVal.s "-c", pyValOfCommand c],
           by simp [DirectUse.fullCmd, bindBlock], by simp⟩
  · intro rd
    exact ⟨[Freeroot.prootPath rd, "--rootfs=" ++ rd, "-0", "-w", "/root"],
           ["bash"], rfl, by simp⟩

/-- C5: each variant follows one fixed policy when run_command is
called with the installed flag absent: freeroot.py always fails with
the not-installed error and never installs implicitly, while
direct_use_freeroot.py always triggers exactly one implicit install()
before executing the command.  Neither mixes the two behaviours. -/
theorem run_uninstalled_policy_consistent :
    (∀ (s : RootState) (ex : ExecOutcome), s.flag = false →
        Freeroot.runCommand s ex =
          { state := s, output := none, error := some RunError.notInstalled, installCalls := 0 })
    ∧ (∀ (s : RootState) (o : Oracle) (ex : ExecOutcome), s.flag = false →
        (DirectUse.runCommand s o ex).installCalls = 1) := by
  constructor
  · intro s ex h
    simp [Freeroot.runCommand, h]
  · intro s o ex h
    unfold DirectUse.runCommand
    rw [if_pos h]
    split
    · rfl
    · split <;> rfl

theorem run_uninstalled_policy_consistent_witness :
    Freeroot.runCommand cleanState ⟨0, "", ""⟩ =
      { state := cleanState, output := none,
        error := some RunError.notInstalled, installCalls := 0 }
    ∧ (DirectUse.runCommand cleanState oracleAllOk ⟨0, "", ""⟩).installCalls = 1 :=
  ⟨run_uninstalled_policy_consistent.1 cleanState ⟨0, "", ""⟩ rfl,
   run_uninstalled_policy_consistent.2 cleanState oracleAllOk ⟨0, "", ""⟩ rfl⟩

/-- C6 (amended): in both variants the installed flag is written last:
it appears in the trace only as the final step of a non-raising run,
and a raising run leaves no flag.  In freeroot.py a non-raising run
moreover has the engine binary, the extracted tree and the DNS
configuration all in place when the flag appears.  In the direct-use
variant a non-raising run guarantees only the engine binary and the
extracted tree: a failed DNS write is caught and merely warned about,
so the flag can exist without the DNS configuration (see the
counterexample). -/
theorem installed_flag_written_last :
    (∀ (s : RootState) (o : Oracle), s.flag = false →
        ((Freeroot.install s o).raised = false →
          (Freeroot.install s o).state.flag = true
          ∧ (Freeroot.install s o).state.prootBin = true
          ∧ (Freeroot.install s o).state.tree = true
          ∧ (Freeroot.install s o).state.resolv = true
          ∧ (Freeroot.install s o).trace.getLast? = some Step.writeFlag)
        ∧ ((Freeroot.install s o).raised = true →
            (Freeroot.install s o).state.flag = false)
        ∧ (Step.writeFlag ∈ (Freeroot.install s o).trace →
            (Freeroot.install s o).trace.getLast? = some Step.writeFlag))
    ∧ (∀ (s : RootState) (o : Oracle), s.flag = false →
        ((DirectUse.install s o).raised = false →
          (DirectUse.install s o).state.flag = true
          ∧ (DirectUse.install s o).state.prootBin = true
          ∧ (DirectUse.install s o).state.tree = true
          ∧ (DirectUse.install s o).trace.getLast? = some Step.writeFlag)
        ∧ ((DirectUse.install s o).raised = true →
            (DirectUse.install s o).state.flag = false)
        ∧ (Step.writeFlag ∈ (DirectUse.install s o).trace →
            (DirectUse.install s o).trace.getLast? = some Step.writeFlag)) := by
  constructor
  · decide
  · decide

theorem installed_flag_written_last_witness :
    (Freeroot.install cleanState oracleAllOk).trace.getLast? = some Step.writeFlag :=
  ((installed_flag_written_last.1 cleanState oracleAllOk rfl).1 rfl).2.2.2.2

/-- C6 counterexample: in direct_use_freeroot.py, when the resolv.conf
write fails, _configure_rootfs swallows the exception and install()
still writes the installed flag, so the flag exists although the DNS
configuration step did not complete successfully. -/
theorem direct_install_flag_without_dns :
    (DirectUse.install cleanState ⟨true, true, true, false⟩).raised = false
    ∧ (DirectUse.install cleanState ⟨true, true, true, false⟩).state.flag = true
    ∧ (DirectUse.install cleanState ⟨true, true, true, false⟩).state.resolv = false := by
  decide

/-- C7: in both variants, a command that exits with a non-zero status
makes run_command re-raise the subprocess error carrying exactly that
exit code and the captured stderr text; the failure reaches the caller
and is never swallowed. -/
theorem nonzero_exit_surfaces_command_failed :
    ∀ (s : RootState) (o : Oracle) (ex : ExecOutcome), s.flag = true → ex.exitCode ≠ 0 →
      (Freeroot.runCommand s ex).error = some (RunError.commandFailed ex.exitCode ex.stderr)
      ∧ (DirectUse.runCommand s o ex).error
          = some (RunError.commandFailed ex.exitCode ex.stderr) := by
  intro s o ex h1 h2
  constructor
  · simp [Freeroot.runCommand, h1, h2]
  · simp [DirectUse.runCommand, h1, h2]

theorem nonzero_exit_surfaces_command_failed_witness :
    (Freeroot.runCommand ⟨true, true, true, true, true⟩ ⟨2, "", "boom"⟩).error
      = some (RunError.commandFailed 2 "boom") :=
  (nonzero_exit_surfaces_command_failed ⟨true, true, true, true, true⟩ oracleAllOk
    ⟨2, "", "boom"⟩ rfl (by decide)).1

/-- C8 (amended): both download helpers retry on a raising attempt up
to the configured bound (5 in freeroot.py, 3 in the direct-use variant)
and, once the retries are exhausted, return False to the caller instead
of raising.  freeroot.py additionally treats an attempt that writes a
zero-byte file as a failure that consumes one retry; the direct-use
variant returns True on any non-raising attempt, with no size check
(see the counterexample). -/
theorem download_retry_characterization :
    (∀ (att : Nat → Option Nat) (i fuel : Nat), att i = none →
        Freeroot.downloadFile att i (fuel + 1) = Freeroot.downloadFile att (i + 1) fuel)
    ∧ (∀ (att : Nat → Option Nat) (i fuel : Nat), att i = some 0 →
        Freeroot.downloadFile att i (fuel + 1) = Freeroot.downloadFile att (i + 1) fuel)
    ∧ (∀ (att : Nat → Option Nat) (i fuel n : Nat), att i = some n → 0 < n →
        Freeroot.downloadFile att i (fuel + 1) = true)
    ∧ (∀ (att : Nat → Option Nat) (fuel i : Nat),
        (∀ j, j < fuel → att (i + j) = none ∨ att (i + j) = some 0) →
        Freeroot.downloadFile att i fuel = false)
    ∧ (∀ (att : Nat → Option Nat) (i fuel : Nat), att i = none →
        DirectUse.downloadFile att i (fuel + 1) = DirectUse.downloadFile att (i + 1) fuel)
    ∧ (∀ (att : Nat → Option Nat) (i fuel n : Nat), att i = some n →
        DirectUse.downloadFile att i (fuel + 1) = true)
    ∧ (∀ (att : Nat → Option Nat) (fuel i : Nat),
        (∀ j, j < fuel → att (i + j) = none) →
        DirectUse.downloadFile att i fuel = false) :=
  ⟨freeroot_download_none_step, freeroot_download_zero_step, freeroot_download_success,
   freeroot_download_exhausted, direct_download_none_step, direct_download_success,
   direct_download_exhausted⟩

theorem download_retry_characterization_witness :
    Freeroot.downloadFile (fun _ => some 7) 0 5 = true :=
  download_retry_characterization.2.2.1 (fun _ => some 7) 0 4 7 rfl (by decide)

/-- C8 counterexample: the direct-use variant accepts a zero-byte write
as success on the first attempt instead of treating it as a failure and
retrying; under the same attempt outcomes, freeroot.py exhausts its
retries and reports failure. -/
theorem direct_download_accepts_zero_byte :
    DirectUse.downloadFile (fun _ => some 0) 0 3 = true
    ∧ Freeroot.downloadFile (fun _ => some 0) 0 5 = false := by
  exact ⟨rfl, rfl⟩

/-- C9 (amended): freeroot.py run_command wraps a string command as the
single -c argument of a bash invocation appended to the engine argument
list, and appends an already tokenized argument vector unmodified.  The
direct-use run_command instead always places the caller's command
object, whatever its type, as the single element after "bash", "-c":
a tokenized vector is not spliced into the argument list (see the
counterexample). -/
theorem command_vector_construction :
    (∀ (rd wd x : String),
        Freeroot.fullCmd rd wd (Command.str x) = Freeroot.prootCmd rd wd ++ ["bash", "-c", x])
    ∧ (∀ (rd wd : String) (v : List String),
        Freeroot.fullCmd rd wd (Command.argv v) = Freeroot.prootCmd rd wd ++ v)
    ∧ (∀ (rd : String) (wd : Option String) (c : Command), ∃ pre,
        DirectUse.fullCmd rd wd c = pre ++ [PyVal.s "bash", PyVal.s "-c", pyValOfCommand c]
        ∧ ∀ q ∈ pre, ∃ y, q = PyVal.s y) := by
  refine ⟨fun rd wd x => rfl, fun rd wd v => rfl, ?_⟩
  intro rd wd c
  refine ⟨[Freeroot.prootPath rd, "--rootfs=" ++ rd, "-0", "-w", wd.getD "/root",
           "-b", "/dev", "-b", "/sys", "-b", "/proc",
           "-b", rd ++ "/etc/resolv.conf:/etc/resolv.conf",
           "--kill-on-exit"].map PyVal.s, ?_, ?_⟩
  · simp [DirectUse.fullCmd]
  · intro q hq
    rcases List.mem_map.mp hq with ⟨a, _, rfl⟩
    exact ⟨a, rfl⟩

/-- C9 counterexample: handing direct_use_freeroot.py run_command a
tokenized vector does not append it to the engine argument list: the
whole vector ends up as the single element after "-c" and its tokens
never appear as their own arguments. -/
theorem direct_run_wraps_argv_in_c_flag :
    PyVal.l ["echo", "hi"]
      ∈ DirectUse.fullCmd "/root/rootfs" (some "/root") (Command.argv ["echo", "hi"])
    ∧ PyVal.s "echo"
      ∉ DirectUse.fullCmd "/root/rootfs" (some "/root") (Command.argv ["echo", "hi"]) := by
  decide

/-- C10: the installed-flag path is os.path.join(rootfs_dir,
".installed"), which lies strictly under the root directory, so in any
filesystem the flag can only exist when the root directory exists;
cleanup() removing the root directory removes the flag with it; and
cleanup() called when the root directory is absent leaves the
filesystem unchanged (the guard prevents any removal attempt, so
nothing can raise).  The hypotheses state that the configured root path
is non-empty and carries no trailing slash, as the constructor's
os.path.join and default values guarantee. -/
theorem installed_flag_inside_root_cleanup :
    ∀ (root : FPath) (fs : List FPath), root ≠ [] → root.getLast? ≠ some '/' →
      (underDir root (installedFlagPath root) = true ∧ installedFlagPath root ≠ root)
      ∧ (installedFlagPath root ∈ fs → rootDirPresent fs root = true)
      ∧ installedFlagPath root ∉ cleanupRoot fs root
      ∧ (rootDirPresent fs root = false → cleanupRoot fs root = fs) := by
  intro root fs h1 h2
  have hflag : installedFlagPath root = root ++ '/' :: String.toList ".installed" :=
    installedFlagPath_eq root h1 h2
  have hunder : underDir root (installedFlagPath root) = true := by
    rw [hflag]; exact underDir_append root _
  have hpresent : installedFlagPath root ∈ fs → rootDirPresent fs root = true := by
    intro hmem
    have hany : fs.any (fun p => underDir root p) = true :=
      List.any_eq_true.mpr ⟨installedFlagPath root, hmem, hunder⟩
    simp [rootDirPresent, hany]
  refine ⟨⟨hunder, ?_⟩, hpresent, ?_, ?_⟩
  · rw [hflag]
    intro h
    have hlen := congrArg List.length h
    simp [List.length_append] at hlen
  · intro hmem
    by_cases hp : rootDirPresent fs root = true
    · simp only [cleanupRoot, hp, if_true] at hmem
      have h3 := List.mem_filter.mp hmem
      rw [hunder] at h3
      simp at h3
    · simp only [cleanupRoot, hp] at hmem
      rw [if_neg (by simp [hp])] at hmem
      exact hp (hpresent hmem)
  · intro hp
    simp [cleanupRoot, hp]

theorem installed_flag_inside_root_cleanup_witness :
    installedFlagPath sampleRoot ∉ cleanupRoot [sampleRoot, installedFlagPath sampleRoot] sampleRoot :=
  (installed_flag_inside_root_cleanup sampleRoot [sampleRoot, installedFlagPath sampleRoot]
    (by decide) (by decide)).2.2.1
